import Mathlib

/-!
Formal model of `src/python/nimblephysics/gui_server.py` (class `NimbleGUI`).

The module bridges a nimblephysics `World` to one of two rendering backends:
a websocket browser GUI (live/ticked mode) or pybullet (alternate-renderer /
"bullet" mode).  The embedding below mirrors, line for line:

* the joint index mapper built in `bullet_reset` (lines 178-231),
* the state splitter `bullet_loopState` (lines 263-307) including the frame
  capture sink (lines 296-307),
* the session construction (`__init__`, lines 66-98), the public methods
  `serve`, `displayState`, `loopStates`, `loopPosMatrix`, `stopLooping`,
  `nativeAPI`, `blockWhileServing`, and the tick/connect callbacks
  `_onTick` / `_onConnect` (lines 100-176, 328-329).

External collaborators (nimblephysics, pybullet, numpy, the HTTP server) are
opaque: their calls are recorded as effects or commands rather than executed.
Scalars are modelled as rationals, numpy arrays as lists of rationals.
Python exceptions that escape a method (the bare `AttributeError` raised by
reading a missing attribute, the `AssertionError` of `bullet_reset`) are
modelled with `Option PyErr` / `Except String`; a Python exception does not
roll back the attribute and world mutations already performed, so each method
returns the mutated store/session alongside the error.
-/

deriving instance DecidableEq for Except

namespace JadeGui

/-- Joint of a simulation skeleton: name, categorical type string as returned
by nimble's `joint.getType()` (`"WeldJoint"`, `"FreeJoint"`, or other), and
its degree-of-freedom count (`joint.NumDofs`). -/
structure Joint where
  name : String
  jointType : String
  numDofs : Nat
  deriving DecidableEq

/-- Skeleton: name, URDF resource path, base position and Euler-angle base
orientation (`getBasePos` / `getEulerAngle`), and its joints in declaration
order. -/
structure Skeleton where
  name : String
  urdfPath : String
  basePos : List ℚ
  eulerAngle : List ℚ
  joints : List Joint
  deriving DecidableEq

/-- Total degree-of-freedom count of a skeleton (`skeleton.getNumDofs()`):
the sum of the DOF counts of its joints.  (This is the nimble collaborator's
accounting; weld joints have zero DOFs there.) -/
def Skeleton.getNumDofs (s : Skeleton) : Nat :=
  (s.joints.map Joint.numDofs).sum

/-- Simulation world: ordered skeletons, time step, and its mutable state
split into the position half and the velocity half
(`getState` returns positions followed by velocities). -/
structure World where
  skeletons : List Skeleton
  timeStep : ℚ
  pos : List ℚ
  vel : List ℚ
  deriving DecidableEq

/-- Total DOF count of the world (`world.getNumDofs()`). -/
def World.getNumDofs (w : World) : Nat :=
  (w.skeletons.map Skeleton.getNumDofs).sum

/-- Flat state vector of the world (`world.getState()`): positions then
velocities. -/
def World.getState (w : World) : List ℚ :=
  w.pos ++ w.vel

/-- `world.setState(x)`: the first `getNumDofs` entries become the position
half, the rest the velocity half. -/
def World.setState (w : World) (x : List ℚ) : World :=
  { w with pos := x.take w.getNumDofs, vel := x.drop w.getNumDofs }

/-- `world.setPositions(p)`: replaces the position half. -/
def World.setPositions (w : World) (p : List ℚ) : World :=
  { w with pos := p }

/-- `world.clone()`: a value copy; mutating the copy never touches the
original. -/
def World.clone (w : World) : World := w

/-- Default world used only as the fallback of `List.getD` reads of the
object store (never reached on the valid references the theorems use). -/
def defaultWorld : World := ⟨[], 0, [], []⟩

/-! ## Joint index mapper (`bullet_reset`, lines 205-231)

One entry of `self.joint_to_state[skeleton_idx]`, the Python list
`[isFreeJoint, staTick, dof, bullet_joint_idx, nimble_joint_idx]`. -/

/-- Entry of the per-skeleton joint mapping table built by `bullet_reset`. -/
structure JointEntry where
  isFreeJoint : Bool
  staTick : Nat
  dof : Nat
  bullet_joint_idx : Option Nat
  nimble_joint_idx : Nat
  deriving DecidableEq

/-- Inner loop of `bullet_reset` over one skeleton's joints (lines 209-231).
`table` is pybullet's joint-name-to-index dictionary for the mirror body
(`bullet_joint_name_idx`), `tick` the running cumulative DOF offset, `idx`
the enumeration index of the joint within the skeleton.  Weld joints are
skipped; free joints get no bullet index (a same-named bullet joint only
triggers a console print, line 220, not modelled); any other joint must
exist in the bullet table or the Python `assert` on line 226 fires with the
message `f'{name} is not found in bullet, check urdf'`. -/
def buildJointEntries (table : String → Option Nat) :
    List Joint → Nat → Nat → Except String (List JointEntry)
  | [], _, _ => .ok []
  | j :: rest, tick, idx =>
    if j.jointType = "WeldJoint" then
      buildJointEntries table rest tick (idx + 1)
    else if j.jointType = "FreeJoint" then
      match buildJointEntries table rest (tick + j.numDofs) (idx + 1) with
      | .ok es => .ok (⟨true, tick, j.numDofs, none, idx⟩ :: es)
      | .error m => .error m
    else
      match table j.name with
      | some b =>
        match buildJointEntries table rest (tick + j.numDofs) (idx + 1) with
        | .ok es => .ok (⟨false, tick, j.numDofs, some b, idx⟩ :: es)
        | .error m => .error m
      | none => .error (j.name ++ " is not found in bullet, check urdf")

/-- Per-skeleton record built by `bullet_reset`: the pybullet body id
(`p.loadURDF` hands out ids in load order, so the skeleton's index), the
recorded initial pose `self.init_pos_rot[name] = (pos, rot)`, and the joint
mapping entries. -/
structure SkelMap where
  bullet_id : Nat
  init_pos : List ℚ
  init_rot : List ℚ
  entries : List JointEntry
  deriving DecidableEq

/-- Loop of `bullet_reset` over the world's skeletons.  `tabs k` is the
bullet joint table of the mirror body loaded for skeleton `k`. -/
def resetGo (tabs : Nat → String → Option Nat) :
    List Skeleton → Nat → Except String (List SkelMap)
  | [], _ => .ok []
  | sk :: rest, k =>
    match buildJointEntries (tabs k) sk.joints 0 0 with
    | .error m => .error m
    | .ok es =>
      match resetGo tabs rest (k + 1) with
      | .error m => .error m
      | .ok ms => .ok (⟨k, sk.basePos, sk.eulerAngle, es⟩ :: ms)

/-- `bullet_reset` (lines 178-231): builds the joint mapping tables and the
recorded initial poses for every skeleton of the world, or aborts with the
`AssertionError` message of the first missing joint. -/
def bullet_reset (w : World) (tabs : Nat → String → Option Nat) :
    Except String (List SkelMap) :=
  resetGo tabs w.skeletons 0

/-! ## State splitter (`bullet_loopState`, lines 263-294) -/

/-- One pybullet call issued by `bullet_loopState`.  For a free joint the
code calls `p.resetBasePositionAndOrientation(p_id, pos_change + init_pos,
p.getQuaternionFromEuler(init_angle + angle_change))`; the command records
the Euler-angle argument of `getQuaternionFromEuler` (the conversion itself
belongs to the opaque pybullet collaborator). -/
inductive BulletCmd where
  | resetBasePose (p_id : Nat) (pos : List ℚ) (euler : List ℚ)
  | resetJointState (p_id : Nat) (joint_idx : Nat) (value : ℚ)
  | resetJointStateMultiDof (p_id : Nat) (joint_idx : Nat) (values : List ℚ)
  deriving DecidableEq

/-- Inner loop of `bullet_loopState` over one skeleton's mapping entries
(lines 274-292).  `actions` is the skeleton's slice of the flat state. -/
def skelJointCmds (p_id : Nat) (init_pos init_rot : List ℚ)
    (actions : List ℚ) : List JointEntry → List BulletCmd
  | [] => []
  | e :: rest =>
    (if e.isFreeJoint then
      let action := (actions.drop e.staTick).take e.dof
      [BulletCmd.resetBasePose p_id
        (List.zipWith (· + ·) (action.drop 3) init_pos)
        (List.zipWith (· + ·) init_rot (action.take 3))]
     else
      match e.bullet_joint_idx with
      | some b =>
        if e.dof = 1 then
          [BulletCmd.resetJointState p_id b ((actions.drop e.staTick).headD 0)]
        else
          [BulletCmd.resetJointStateMultiDof p_id b
            ((actions.drop e.staTick).take e.dof)]
      | none => []) ++ skelJointCmds p_id init_pos init_rot actions rest
-- A `none` bullet index on a non-free entry is never produced by
-- `bullet_reset`; pybullet would reject it, so no command is recorded.

/-- Outer loop of `bullet_loopState` over the skeletons (lines 264-294),
zipped with their `SkelMap` records; `tick` is the running DOF offset into
the flat state.  Skeletons with zero DOFs are skipped (`continue`). -/
def loopStateGo : List (Skeleton × SkelMap) → Nat → List ℚ → List BulletCmd
  | [], _, _ => []
  | (sk, m) :: rest, tick, state =>
    if sk.getNumDofs = 0 then loopStateGo rest tick state
    else
      skelJointCmds m.bullet_id m.init_pos m.init_rot
        ((state.drop tick).take sk.getNumDofs) m.entries
        ++ loopStateGo rest (tick + sk.getNumDofs) state

/-- `bullet_loopState` state application (lines 263-294): the pybullet calls
issued for one flat state vector. -/
def bullet_loopState (w : World) (maps : List SkelMap) (state : List ℚ) :
    List BulletCmd :=
  loopStateGo (w.skeletons.zip maps) 0 state

/-! ## Frame capture sink (lines 296-307) -/

/-- File paths written by the capture sink for one frame: nothing unless the
synthetic camera is enabled AND a capture directory AND a save index are
present; otherwise one `.npy` file per modality, `np.save` appending the
`.npy` suffix to `os.path.join(dir, f'{modality}_{save_idx}')`
(the braces here describe the Python f-string). -/
def captureWrites (useSyn : Bool) (path : Option String) (save_idx : Option Nat) :
    List String :=
  if useSyn then
    match path, save_idx with
    | some dir, some idx =>
      [dir ++ "/rgb_" ++ toString idx ++ ".npy",
       dir ++ "/depth_" ++ toString idx ++ ".npy",
       dir ++ "/segmentation_" ++ toString idx ++ ".npy"]
    | _, _ => []
  else []

/-! ## Session state and methods

Attributes that exist only after a particular `__init__` branch or a
particular assignment are modelled as `Option` fields (`none` = attribute
absent; a Python read of an absent attribute raises `AttributeError`).
`guiServer` is `true` exactly when `self.guiServer` exists (websocket mode).
The session's world reference (`self.world`) is an index into an object
store of worlds, so that aliasing between the caller's world and the
session's world is observable. -/

/-- Python exception escaping a method call. -/
inductive PyErr where
  | attributeError (name : String)
  deriving DecidableEq

/-- Observable calls made to the opaque collaborators. -/
inductive Effect where
  | renderWorld
  | renderTrajectoryLines
  | logWarning (msg : String)
  | printMsg (msg : String)
  | guiServe (port : Nat)
  | httpServe (port : Nat)
  | blockServing
  | tickerStart
  | bulletCmdE (c : BulletCmd)
  | cameraImage
  | fileWrite (path : String)
  | sleepE
  deriving DecidableEq

/-- Store of live `World` objects; references are list indices. -/
abbrev Store := List World

/-- Session object (`NimbleGUI` instance). -/
structure Session where
  useBullet : Bool
  worldRef : Nat
  guiServer : Bool
  looping : Option Bool
  posMatrixToLoop : Option (List (List ℚ))
  statesToLoop : Option (List (List ℚ))
  i : Option Nat
  tickerStarted : Bool
  bulletMaps : List SkelMap
  useSyntheticCamera : Bool
  saveCameraPath : Option String
  deriving DecidableEq

/-- Result of a method call: the (possibly mutated) store and session, the
effects issued, and the Python exception that escaped, if any.  Mutations
performed before the exception was raised stay visible. -/
structure MRes where
  store : Store
  sess : Session
  effs : List Effect
  err : Option PyErr
  deriving DecidableEq

/-- Ticker state after `__init__` plus the effects of one bullet frame:
the splitter's pybullet calls, then the synthetic-camera capture
(`getCameraImage` plus the `np.save` writes). -/
def bulletFrameEffects (w : World) (maps : List SkelMap)
    (useSyn : Bool) (path : Option String)
    (state : List ℚ) (save_idx : Option Nat) : List Effect :=
  (bullet_loopState w maps state).map Effect.bulletCmdE
    ++ (if useSyn then
          Effect.cameraImage :: (captureWrites useSyn path save_idx).map Effect.fileWrite
        else [])

/-- Websocket-mode `__init__` (lines 87-98): clone the caller's world into
the store, render it, create the (not yet started) ticker, initialise the
loop fields.  `r` is the caller's world reference. -/
def init_ws (st : Store) (r : Nat) : Store × Session × List Effect :=
  (st ++ [(st.getD r defaultWorld).clone],
   { useBullet := false
     worldRef := st.length
     guiServer := true
     looping := some false
     posMatrixToLoop := some []
     statesToLoop := none
     i := some 0
     tickerStarted := false
     bulletMaps := []
     useSyntheticCamera := true
     saveCameraPath := none },
   [Effect.renderWorld])

/-- Bullet-mode `__init__` via `render_bullet_init` (lines 72-86, 233-259):
the caller's world is stored WITHOUT cloning (`self.world = world`, line
180), the joint mapper runs (`bullet_reset`), then the initial state is
applied (`bullet_loopState(world.getState(), None)`).  A missing joint
aborts construction with the `AssertionError`.  pybullet connect /
configure calls and logging are not recorded. -/
def init_bullet (st : Store) (r : Nat) (tabs : Nat → String → Option Nat)
    (useSyn : Bool) (path : Option String) :
    Except String (Store × Session × List Effect) :=
  let w := st.getD r defaultWorld
  match bullet_reset w tabs with
  | .error m => .error m
  | .ok maps =>
    .ok (st,
      { useBullet := true
        worldRef := r
        guiServer := false
        looping := none
        posMatrixToLoop := none
        statesToLoop := none
        i := none
        tickerStarted := false
        bulletMaps := maps
        useSyntheticCamera := useSyn
        saveCameraPath := path },
      bulletFrameEffects w maps useSyn path w.getState none)

/-- `serve` (lines 100-110): guarded in bullet mode (warning, no-op);
otherwise starts the websocket server on the hardcoded port 8070 and the
HTTP file server on the requested port. -/
def serve (st : Store) (s : Session) (port : Nat) : MRes :=
  if s.useBullet then
    ⟨st, s, [Effect.logWarning "No need to call this function for bullet"], none⟩
  else
    ⟨st, s,
     [Effect.guiServe 8070,
      Effect.printMsg ("Web GUI serving on http://localhost:" ++ toString port),
      Effect.httpServe port], none⟩

/-- `displayState` (lines 123-126): NOT guarded in bullet mode.  It always
clears the looping flag and writes the state into `self.world`; the final
`self.guiServer.renderWorld` raises `AttributeError` in bullet mode, after
those mutations already happened. -/
def displayState (st : Store) (s : Session) (x : List ℚ) : MRes :=
  let s₁ := { s with looping := some false }
  let st₁ := st.set s.worldRef ((st.getD s.worldRef defaultWorld).setState x)
  if s.guiServer then ⟨st₁, s₁, [Effect.renderWorld], none⟩
  else ⟨st₁, s₁, [], some (PyErr.attributeError "guiServer")⟩

/-- `loopStates` (lines 128-147).  Bullet branch: one synchronous pass over
the states, applying each frame and sleeping (with `indefinite=True` the
Python loop repeats forever and never returns; only the first pass is
recorded here, and no claim depends on the repetition).  Websocket branch:
set the looping flag, keep the states, build the position matrix from the
position half of each state, draw the trajectory overlay, install the
matrix.  The playback cursor `self.i` is NOT touched. -/
def loopStates (st : Store) (s : Session) (states : List (List ℚ))
    (_indefinite : Bool) (save_start_idx : Nat) : MRes :=
  if s.useBullet then
    let w := st.getD s.worldRef defaultWorld
    ⟨st, s,
     (List.range states.length).flatMap (fun k =>
       bulletFrameEffects w s.bulletMaps s.useSyntheticCamera s.saveCameraPath
         (states.getD k []) (some (k + save_start_idx)) ++ [Effect.sleepE]),
     none⟩
  else
    let s₁ := { s with looping := some true, statesToLoop := some states }
    let dofs := (st.getD s.worldRef defaultWorld).getNumDofs
    let poses := states.map (fun v => v.take dofs)
    if s.guiServer then
      ⟨st, { s₁ with posMatrixToLoop := some poses },
       [Effect.renderTrajectoryLines], none⟩
    else ⟨st, s₁, [], some (PyErr.attributeError "guiServer")⟩

/-- `loopPosMatrix` (lines 149-153): NOT guarded in bullet mode.  Sets the
looping flag, then `self.guiServer.renderTrajectoryLines` (raises
`AttributeError` in bullet mode, the flag already set), then installs a
copy of the matrix (modelled as a list of columns). -/
def loopPosMatrix (st : Store) (s : Session) (poses : List (List ℚ)) : MRes :=
  let s₁ := { s with looping := some true }
  if s.guiServer then
    ⟨st, { s₁ with posMatrixToLoop := some poses },
     [Effect.renderTrajectoryLines], none⟩
  else ⟨st, s₁, [], some (PyErr.attributeError "guiServer")⟩

/-- `stopLooping` (lines 155-156). -/
def stopLooping (st : Store) (s : Session) : MRes :=
  ⟨st, { s with looping := some false }, [], none⟩

/-- Return value of `nativeAPI`: the deprecated stub whose every method only
logs, or the real websocket server handle. -/
inductive NativeRet where
  | stub
  | server
  deriving DecidableEq

/-- `nativeAPI` (lines 158-162): in bullet mode prints a notice (plain
`print`, not a logger warning) and returns a `DeprecatedClass` stub. -/
def nativeAPI (s : Session) : NativeRet × List Effect :=
  if s.useBullet then
    (NativeRet.stub, [Effect.printMsg "No need to call this function for bullet"])
  else (NativeRet.server, [])

/-- `blockWhileServing` (lines 164-167): in bullet mode returns silently
(no warning); otherwise blocks on the websocket server. -/
def blockWhileServing (st : Store) (s : Session) : MRes :=
  if s.useBullet then ⟨st, s, [], none⟩
  else ⟨st, s, [Effect.blockServing], none⟩

/-- `_onTick` (lines 169-176): when a loop is active and the cursor is
within the trajectory, apply the cursor's column as the world's positions,
render, and advance the cursor; once the cursor has passed the end, reset
it to 0 without applying anything. -/
def onTick (st : Store) (s : Session) : MRes :=
  match s.looping with
  | none => ⟨st, s, [], some (PyErr.attributeError "looping")⟩
  | some false => ⟨st, s, [], none⟩
  | some true =>
    match s.posMatrixToLoop, s.i with
    | some cols, some i =>
      if i < cols.length then
        ⟨st.set s.worldRef ((st.getD s.worldRef defaultWorld).setPositions (cols.getD i [])),
         { s with i := some (i + 1) }, [Effect.renderWorld], none⟩
      else ⟨st, { s with i := some 0 }, [], none⟩
    | _, _ => ⟨st, s, [], some (PyErr.attributeError "posMatrixToLoop")⟩

/-- `_onConnect` (lines 328-329): the connection-established callback starts
the ticker; before it fires the ticker never delivers a tick. -/
def onConnect (st : Store) (s : Session) : MRes :=
  ⟨st, { s with tickerStarted := true }, [Effect.tickerStart], none⟩

/-! ## Event-level dynamics -/

/-- Externally observable events driving a websocket session: public method
calls, a timer firing, and a viewer connecting. -/
inductive WsOp where
  | display (x : List ℚ)
  | loopStatesOp (states : List (List ℚ))
  | loopPosOp (poses : List (List ℚ))
  | stopLoop
  | timerFire
  | connect
  deriving DecidableEq

/-- One event step.  A timer firing invokes `_onTick` only when the ticker
has been started (`Ticker.start` is called in `_onConnect` alone); an
unstarted ticker delivers nothing. -/
def stepOp (p : Store × Session) (op : WsOp) : MRes :=
  match op with
  | .display x => displayState p.1 p.2 x
  | .loopStatesOp states => loopStates p.1 p.2 states false 0
  | .loopPosOp poses => loopPosMatrix p.1 p.2 poses
  | .stopLoop => stopLooping p.1 p.2
  | .timerFire =>
    if p.2.tickerStarted then onTick p.1 p.2 else ⟨p.1, p.2, [], none⟩
  | .connect => onConnect p.1 p.2

/-- Result of running a sequence of events: final store and session, and
the concatenated effects. -/
structure RunRes where
  store : Store
  sess : Session
  effs : List Effect
  deriving DecidableEq

/-- Run a sequence of events from a given store/session pair. -/
def runOps : List WsOp → Store × Session → RunRes
  | [], p => ⟨p.1, p.2, []⟩
  | op :: rest, p =>
    let r := stepOp p op
    let r' := runOps rest (r.store, r.sess)
    ⟨r'.store, r'.sess, r.effs ++ r'.effs⟩

/-- One bare tick of the timer callback, dropping effects and the (never
occurring, in websocket mode) error. -/
def tickStep (p : Store × Session) : Store × Session :=
  let r := onTick p.1 p.2
  (r.store, r.sess)

/-- `n` consecutive timer callbacks. -/
def tickN (n : Nat) (p : Store × Session) : Store × Session :=
  tickStep^[n] p

/-! ## Concrete instances used by witnesses and counterexamples -/

/-- Joints of the two-joint example skeleton of the spec: a free-floating
root followed by a single-DOF joint named "elbow". -/
def elbowJoints : List Joint :=
  [⟨"root", "FreeJoint", 6⟩, ⟨"elbow", "RevoluteJoint", 1⟩]

/-- Example skeleton with prescribed base position and orientation. -/
def elbowSkeleton (p r : List ℚ) : Skeleton :=
  ⟨"skel", "skel.urdf", p, r, elbowJoints⟩

/-- Bullet joint table of the example's mirror body: it has "elbow" at
index 0 and nothing else. -/
def elbowTable : String → Option Nat :=
  fun n => if n = "elbow" then some 0 else none

/-- Seven-DOF example world holding just the example skeleton, at rest. -/
def elbowWorld (p r : List ℚ) : World :=
  ⟨[elbowSkeleton p r], 1, List.replicate 7 0, List.replicate 7 0⟩

/-- Caller-owned store with the example world at reference 0. -/
def demoStore : Store := [elbowWorld [0, 0, 0] [0, 0, 0]]

/-- Per-skeleton bullet joint tables of the example. -/
def demoTabs : Nat → String → Option Nat := fun _ => elbowTable

/-- The joint mapping `bullet_reset` builds for the example skeleton. -/
def demoMaps : List SkelMap :=
  [⟨0, [0, 0, 0], [0, 0, 0],
    [⟨true, 0, 6, none, 0⟩, ⟨false, 6, 1, some 0, 1⟩]⟩]

/-- The session bullet-mode construction builds over `demoStore`: note
`worldRef = 0`, the caller's own reference — no clone. -/
def demoBulletSess : Session :=
  { useBullet := true
    worldRef := 0
    guiServer := false
    looping := none
    posMatrixToLoop := none
    statesToLoop := none
    i := none
    tickerStarted := false
    bulletMaps := demoMaps
    useSyntheticCamera := true
    saveCameraPath := none }

/-- World whose only skeleton "arm" has a single revolute joint "elbow";
used with an empty bullet table to exercise the missing-joint abort. -/
def armWorld : World :=
  ⟨[⟨"arm", "arm.urdf", [0, 0, 0], [0, 0, 0], [⟨"elbow", "RevoluteJoint", 1⟩]⟩],
   1, [0], [0]⟩

/-- Store holding the arm world at reference 0. -/
def armStore : Store := [armWorld]

/-- Bullet joint tables with no joints at all. -/
def emptyTabs : Nat → String → Option Nat := fun _ _ => none

/-- Minimal one-DOF world for the websocket playback examples. -/
def oneDofWorld : World :=
  ⟨[⟨"s", "s.urdf", [], [], [⟨"j", "RevoluteJoint", 1⟩]⟩], 1, [0], [0]⟩

/-- Caller-owned store for the websocket playback examples. -/
def wsStore : Store := [oneDofWorld]

/-! ## Lemmas about the joint index mapper -/

/-- Entries built from running offset `t` carry the cumulative DOF sums of
the preceding entries, shifted by `t`. -/
lemma buildJointEntries_offsets (table : String → Option Nat) :
    ∀ (js : List Joint) (t idx : Nat) (m : List JointEntry),
      buildJointEntries table js t idx = .ok m →
      ∀ k (hk : k < m.length),
        m[k].staTick = t + ((m.take k).map JointEntry.dof).sum := by
  intro js
  induction js with
  | nil =>
    intro t idx m hm k hk
    simp only [buildJointEntries] at hm
    cases hm
    simp at hk
  | cons j rest ih =>
    intro t idx m hm k hk
    simp only [buildJointEntries] at hm
    by_cases hw : j.jointType = "WeldJoint"
    · rw [if_pos hw] at hm
      exact ih t (idx + 1) m hm k hk
    · rw [if_neg hw] at hm
      by_cases hf : j.jointType = "FreeJoint"
      · rw [if_pos hf] at hm
        cases hrec : buildJointEntries table rest (t + j.numDofs) (idx + 1) with
        | error msg => rw [hrec] at hm; cases hm
        | ok es =>
          rw [hrec] at hm
          cases hm
          cases k with
          | zero => simp
          | succ k' =>
            have hk' : k' < es.length := by simpa using hk
            have := ih (t + j.numDofs) (idx + 1) es hrec k' hk'
            simpa [List.take_succ_cons, this] using by omega
      · rw [if_neg hf] at hm
        cases ht : table j.name with
        | none => rw [ht] at hm; cases hm
        | some b =>
          rw [ht] at hm
          cases hrec : buildJointEntries table rest (t + j.numDofs) (idx + 1) with
          | error msg => rw [hrec] at hm; cases hm
          | ok es =>
            rw [hrec] at hm
            cases hm
            cases k with
            | zero => simp
            | succ k' =>
              have hk' : k' < es.length := by simpa using hk
              have := ih (t + j.numDofs) (idx + 1) es hrec k' hk'
              simpa [List.take_succ_cons, this] using by omega

/-- The DOF counts of the entries sum to the skeleton's joint DOF total,
provided weld joints have zero DOFs (as they do in nimble). -/
lemma buildJointEntries_dofSum (table : String → Option Nat) :
    ∀ (js : List Joint) (t idx : Nat) (m : List JointEntry),
      buildJointEntries table js t idx = .ok m →
      (∀ j ∈ js, j.jointType = "WeldJoint" → j.numDofs = 0) →
      (m.map JointEntry.dof).sum = (js.map Joint.numDofs).sum := by
  intro js
  induction js with
  | nil =>
    intro t idx m hm _
    simp only [buildJointEntries] at hm
    cases hm
    simp
  | cons j rest ih =>
    intro t idx m hm hweld
    simp only [buildJointEntries] at hm
    have hwrest : ∀ j' ∈ rest, j'.jointType = "WeldJoint" → j'.numDofs = 0 :=
      fun j' hj' => hweld j' (List.mem_cons_of_mem _ hj')
    by_cases hw : j.jointType = "WeldJoint"
    · rw [if_pos hw] at hm
      have h0 : j.numDofs = 0 := hweld j (List.mem_cons_self _ _) hw
      simp [h0, ih t (idx + 1) m hm hwrest]
    · rw [if_neg hw] at hm
      by_cases hf : j.jointType = "FreeJoint"
      · rw [if_pos hf] at hm
        cases hrec : buildJointEntries table rest (t + j.numDofs) (idx + 1) with
        | error msg => rw [hrec] at hm; cases hm
        | ok es =>
          rw [hrec] at hm
          cases hm
          simp [ih (t + j.numDofs) (idx + 1) es hrec hwrest]
      · rw [if_neg hf] at hm
        cases ht : table j.name with
        | none => rw [ht] at hm; cases hm
        | some b =>
          rw [ht] at hm
          cases hrec : buildJointEntries table rest (t + j.numDofs) (idx + 1) with
          | error msg => rw [hrec] at hm; cases hm
          | ok es =>
            rw [hrec] at hm
            cases hm
            simp [ih (t + j.numDofs) (idx + 1) es hrec hwrest]

/-- Each non-weld joint contributes exactly one mapping entry; weld joints
contribute none. -/
lemma buildJointEntries_count (table : String → Option Nat) :
    ∀ (js : List Joint) (t idx : Nat) (m : List JointEntry),
      buildJointEntries table js t idx = .ok m →
      m.length = (js.filter (fun j => j.jointType ≠ "WeldJoint")).length := by
  intro js
  induction js with
  | nil =>
    intro t idx m hm
    simp only [buildJointEntries] at hm
    cases hm
    simp
  | cons j rest ih =>
    intro t idx m hm
    simp only [buildJointEntries] at hm
    by_cases hw : j.jointType = "WeldJoint"
    · rw [if_pos hw] at hm
      simpa [List.filter, hw] using ih t (idx + 1) m hm
    · rw [if_neg hw] at hm
      by_cases hf : j.jointType = "FreeJoint"
      · rw [if_pos hf] at hm
        cases hrec : buildJointEntries table rest (t + j.numDofs) (idx + 1) with
        | error msg => rw [hrec] at hm; cases hm
        | ok es =>
          rw [hrec] at hm
          cases hm
          simpa [List.filter, hw] using ih (t + j.numDofs) (idx + 1) es hrec
      · rw [if_neg hf] at hm
        cases ht : table j.name with
        | none => rw [ht] at hm; cases hm
        | some b =>
          rw [ht] at hm
          cases hrec : buildJointEntries table rest (t + j.numDofs) (idx + 1) with
          | error msg => rw [hrec] at hm; cases hm
          | ok es =>
            rw [hrec] at hm
            cases hm
            simpa [List.filter, hw] using ih (t + j.numDofs) (idx + 1) es hrec

/-- A skeleton all of whose joints are weld joints yields an empty mapping. -/
lemma buildJointEntries_all_weld (table : String → Option Nat) :
    ∀ (js : List Joint) (t idx : Nat),
      (∀ j ∈ js, j.jointType = "WeldJoint") →
      buildJointEntries table js t idx = .ok [] := by
  intro js
  induction js with
  | nil => intro t idx _; rfl
  | cons j rest ih =>
    intro t idx hall
    have hw : j.jointType = "WeldJoint" := hall j (List.mem_cons_self _ _)
    simp only [buildJointEntries, if_pos hw]
    exact ih t (idx + 1) (fun j' hj' => hall j' (List.mem_cons_of_mem _ hj'))

/-- C2: for every skeleton, the joint mapping built at world load satisfies
the partition invariant — each entry's cumulative offset equals the sum of
the DOF counts of the preceding entries (monotone, gap-free, starting at 0),
the DOF counts of the entries sum to the skeleton's total DOF count, weld
joints contribute no entry (every non-weld joint exactly one), and a
skeleton with only weld joints gets the empty mapping with cumulative sum 0.
The side condition that weld joints carry zero DOFs is the nimble
collaborator's invariant on `Joint.getNumDofs`. -/
theorem C2_joint_mapping_partition (table : String → Option Nat) (sk : Skeleton)
    (m : List JointEntry)
    (hok : buildJointEntries table sk.joints 0 0 = .ok m)
    (hweld : ∀ j ∈ sk.joints, j.jointType = "WeldJoint" → j.numDofs = 0) :
    (∀ k (hk : k < m.length), m[k].staTick = ((m.take k).map JointEntry.dof).sum)
    ∧ (m.map JointEntry.dof).sum = sk.getNumDofs
    ∧ m.length = (sk.joints.filter (fun j => j.jointType ≠ "WeldJoint")).length
    ∧ ((∀ j ∈ sk.joints, j.jointType = "WeldJoint") → m = []) := by
  refine ⟨?_, ?_, ?_, ?_⟩
  · intro k hk
    simpa using buildJointEntries_offsets table sk.joints 0 0 m hok k hk
  · rw [buildJointEntries_dofSum table sk.joints 0 0 m hok hweld]
    rfl
  · exact buildJointEntries_count table sk.joints 0 0 m hok
  · intro hall
    have := buildJointEntries_all_weld table sk.joints 0 0 hall
    rw [hok] at this
    cases this
    rfl

/-- Skeleton exercising all three joint kinds for the C2 witness. -/
def witSkel : Skeleton :=
  ⟨"w", "w.urdf", [0, 0, 0], [0, 0, 0],
   [⟨"fix", "WeldJoint", 0⟩, ⟨"root", "FreeJoint", 6⟩, ⟨"elbow", "RevoluteJoint", 1⟩]⟩

/-- Witness for C2 at a concrete skeleton with a weld, a free and a revolute
joint: the mapping has two entries with offsets 0 and 6 and DOF sum 7. -/
theorem C2_witness :
    buildJointEntries elbowTable witSkel.joints 0 0
      = .ok [⟨true, 0, 6, none, 1⟩, ⟨false, 6, 1, some 0, 2⟩]
    ∧ ([(⟨true, 0, 6, none, 1⟩ : JointEntry), ⟨false, 6, 1, some 0, 2⟩].map
        JointEntry.dof).sum = witSkel.getNumDofs :=
  ⟨by decide,
   (C2_joint_mapping_partition elbowTable witSkel
      [⟨true, 0, 6, none, 1⟩, ⟨false, 6, 1, some 0, 2⟩]
      (by decide) (by decide)).2.1⟩

/-! ## Lemmas about the missing-joint abort -/

/-- A successful mapping build means every non-weld, non-free joint was
found in the bullet joint table. -/
lemma buildJointEntries_ok_present (table : String → Option Nat) :
    ∀ (js : List Joint) (t idx : Nat) (m : List JointEntry),
      buildJointEntries table js t idx = .ok m →
      ∀ j ∈ js, j.jointType ≠ "WeldJoint" → j.jointType ≠ "FreeJoint" →
        table j.name ≠ none := by
  intro js
  induction js with
  | nil => intro t idx m _ j hj; cases hj
  | cons j0 rest ih =>
    intro t idx m hm j hj hw hf
    simp only [buildJointEntries] at hm
    rcases List.mem_cons.mp hj with rfl | hj'
    · rw [if_neg hw, if_neg hf] at hm
      cases ht : table j.name with
      | none => rw [ht] at hm; cases hm
      | some b => simp [ht]
    · by_cases hw0 : j0.jointType = "WeldJoint"
      · rw [if_pos hw0] at hm
        exact ih t (idx + 1) m hm j hj' hw hf
      · rw [if_neg hw0] at hm
        by_cases hf0 : j0.jointType = "FreeJoint"
        · rw [if_pos hf0] at hm
          cases hrec : buildJointEntries table rest (t + j0.numDofs) (idx + 1) with
          | error msg => rw [hrec] at hm; cases hm
          | ok es => exact ih (t + j0.numDofs) (idx + 1) es hrec j hj' hw hf
        · rw [if_neg hf0] at hm
          cases ht0 : table j0.name with
          | none => rw [ht0] at hm; cases hm
          | some b =>
            rw [ht0] at hm
            cases hrec : buildJointEntries table rest (t + j0.numDofs) (idx + 1) with
            | error msg => rw [hrec] at hm; cases hm
            | ok es => exact ih (t + j0.numDofs) (idx + 1) es hrec j hj' hw hf

/-- A failed mapping build produces exactly the assert message of some
missing non-weld, non-free joint: the joint's name followed by
" is not found in bullet, check urdf". -/
lemma buildJointEntries_error_shape (table : String → Option Nat) :
    ∀ (js : List Joint) (t idx : Nat) (msg : String),
      buildJointEntries table js t idx = .error msg →
      ∃ j, j ∈ js ∧ j.jointType ≠ "WeldJoint" ∧ j.jointType ≠ "FreeJoint"
        ∧ table j.name = none
        ∧ msg = j.name ++ " is not found in bullet, check urdf" := by
  intro js
  induction js with
  | nil => intro t idx msg hm; simp only [buildJointEntries] at hm; cases hm
  | cons j0 rest ih =>
    intro t idx msg hm
    simp only [buildJointEntries] at hm
    by_cases hw0 : j0.jointType = "WeldJoint"
    · rw [if_pos hw0] at hm
      obtain ⟨j, hj, h⟩ := ih t (idx + 1) msg hm
      exact ⟨j, List.mem_cons_of_mem _ hj, h⟩
    · rw [if_neg hw0] at hm
      by_cases hf0 : j0.jointType = "FreeJoint"
      · rw [if_pos hf0] at hm
        cases hrec : buildJointEntries table rest (t + j0.numDofs) (idx + 1) with
        | error m =>
          rw [hrec] at hm
          cases hm
          obtain ⟨j, hj, h⟩ := ih (t + j0.numDofs) (idx + 1) msg hrec
          exact ⟨j, List.mem_cons_of_mem _ hj, h⟩
        | ok es => rw [hrec] at hm; cases hm
      · rw [if_neg hf0] at hm
        cases ht0 : table j0.name with
        | none =>
          rw [ht0] at hm
          cases hm
          exact ⟨j0, List.mem_cons_self _ _, hw0, hf0, ht0, rfl⟩
        | some b =>
          rw [ht0] at hm
          cases hrec : buildJointEntries table rest (t + j0.numDofs) (idx + 1) with
          | error m =>
            rw [hrec] at hm
            cases hm
            obtain ⟨j, hj, h⟩ := ih (t + j0.numDofs) (idx + 1) msg hrec
            exact ⟨j, List.mem_cons_of_mem _ hj, h⟩
          | ok es => rw [hrec] at hm; cases hm

/-- A successful `bullet_reset` loop means every non-weld, non-free joint of
every skeleton was found in its bullet joint table. -/
lemma resetGo_ok_present (tabs : Nat → String → Option Nat) :
    ∀ (sks : List Skeleton) (k : Nat) (ms : List SkelMap),
      resetGo tabs sks k = .ok ms →
      ∀ (idx : Nat) (sk : Skeleton), sks[idx]? = some sk →
        ∀ j ∈ sk.joints, j.jointType ≠ "WeldJoint" → j.jointType ≠ "FreeJoint" →
          tabs (k + idx) j.name ≠ none := by
  intro sks
  induction sks with
  | nil => intro k ms _ idx sk hsk; simp at hsk
  | cons sk0 rest ih =>
    intro k ms hm idx sk hsk j hj hw hf
    simp only [resetGo] at hm
    cases hb : buildJointEntries (tabs k) sk0.joints 0 0 with
    | error m => rw [hb] at hm; cases hm
    | ok es =>
      rw [hb] at hm
      cases hrec : resetGo tabs rest (k + 1) with
      | error m => rw [hrec] at hm; cases hm
      | ok ms' =>
        cases idx with
        | zero =>
          simp only [List.getElem?_cons_zero, Option.some_inj] at hsk
          cases hsk
          simpa using buildJointEntries_ok_present (tabs k) sk0.joints 0 0 es hb j hj hw hf
        | succ idx' =>
          rw [List.getElem?_cons_succ] at hsk
          have := ih (k + 1) ms' hrec idx' sk hsk j hj hw hf
          simpa [Nat.add_assoc, Nat.add_comm 1 idx'] using this

/-- A failed `bullet_reset` loop produces the assert message of a missing
non-weld, non-free joint of one of the skeletons. -/
lemma resetGo_error_shape (tabs : Nat → String → Option Nat) :
    ∀ (sks : List Skeleton) (k : Nat) (msg : String),
      resetGo tabs sks k = .error msg →
      ∃ (idx : Nat) (sk : Skeleton) (j : Joint),
        sks[idx]? = some sk ∧ j ∈ sk.joints
        ∧ j.jointType ≠ "WeldJoint" ∧ j.jointType ≠ "FreeJoint"
        ∧ tabs (k + idx) j.name = none
        ∧ msg = j.name ++ " is not found in bullet, check urdf" := by
  intro sks
  induction sks with
  | nil => intro k msg hm; simp only [resetGo] at hm; cases hm
  | cons sk0 rest ih =>
    intro k msg hm
    simp only [resetGo] at hm
    cases hb : buildJointEntries (tabs k) sk0.joints 0 0 with
    | error m =>
      rw [hb] at hm
      cases hm
      obtain ⟨j, hj, hw, hf, ht, hmsg⟩ :=
        buildJointEntries_error_shape (tabs k) sk0.joints 0 0 msg hb
      exact ⟨0, sk0, j, by simp, hj, hw, hf, by simpa using ht, hmsg⟩
    | ok es =>
      rw [hb] at hm
      cases hrec : resetGo tabs rest (k + 1) with
      | error m =>
        rw [hrec] at hm
        cases hm
        obtain ⟨idx, sk, j, hsk, hj, hw, hf, ht, hmsg⟩ := ih (k + 1) msg hrec
        refine ⟨idx + 1, sk, j, by simpa using hsk, hj, hw, hf, ?_, hmsg⟩
        simpa [Nat.add_assoc, Nat.add_comm 1 idx] using ht
      | ok ms' => rw [hrec] at hm; cases hm

/-- Executable check that `pat` is an initial segment of `s` (character
lists; used to reason about which names an error message mentions). -/
def charsLead : List Char → List Char → Bool
  | [], _ => true
  | _ :: _, [] => false
  | a :: as, b :: bs => a == b && charsLead as bs

/-- Executable check that `pat` occurs contiguously somewhere in `s`. -/
def charsOccur (pat : List Char) : List Char → Bool
  | [] => charsLead pat []
  | b :: bs => charsLead pat (b :: bs) || charsOccur pat bs

lemma charsLead_iff : ∀ (pat s : List Char),
    charsLead pat s = true ↔ ∃ rest, s = pat ++ rest := by
  intro pat
  induction pat with
  | nil => intro s; simp [charsLead]
  | cons a as ih =>
    intro s
    cases s with
    | nil => simp [charsLead]
    | cons b bs =>
      simp only [charsLead, Bool.and_eq_true, beq_iff_eq, ih bs]
      constructor
      · rintro ⟨rfl, rest, rfl⟩
        exact ⟨rest, rfl⟩
      · rintro ⟨rest, hr⟩
        rw [List.cons_append] at hr
        cases hr
        exact ⟨rfl, rest, rfl⟩

lemma charsOccur_iff : ∀ (pat s : List Char),
    charsOccur pat s = true ↔ ∃ pre post, s = pre ++ pat ++ post := by
  intro pat s
  induction s with
  | nil =>
    simp only [charsOccur, charsLead_iff]
    constructor
    · rintro ⟨rest, hr⟩
      obtain ⟨hpat, -⟩ := List.append_eq_nil.mp hr.symm
      exact ⟨[], [], by simp [hpat]⟩
    · rintro ⟨pre, post, hr⟩
      rw [List.append_assoc] at hr
      obtain ⟨-, hr2⟩ := List.append_eq_nil.mp hr.symm
      obtain ⟨hpat, -⟩ := List.append_eq_nil.mp hr2
      exact ⟨[], by simp [hpat]⟩
  | cons b bs ih =>
    simp only [charsOccur, Bool.or_eq_true, charsLead_iff, ih]
    constructor
    · rintro (⟨rest, hr⟩ | ⟨pre, post, hr⟩)
      · exact ⟨[], rest, by simpa using hr⟩
      · exact ⟨b :: pre, post, by simp [hr]⟩
    · rintro ⟨pre, post, hr⟩
      cases pre with
      | nil => exact Or.inl ⟨post, by simpa using hr⟩
      | cons b' pre' =>
        simp only [List.cons_append, List.cons.injEq] at hr
        exact Or.inr ⟨pre', post, hr.2⟩

/-- C7 (amended): if any skeleton of the loaded world has a non-weld,
non-free joint whose name is absent from that skeleton's bullet joint
table, bullet-mode world load aborts: construction returns the
`AssertionError` instead of a session, so no state is ever applied to the
renderer (the state-application effects exist only in the success branch of
`init_bullet`).  The message is the assert text of a missing joint — it
names that joint, but not its skeleton. -/
theorem C7_missing_joint_aborts (st : Store) (r : Nat)
    (tabs : Nat → String → Option Nat) (useSyn : Bool) (path : Option String)
    (h : ∃ (idx : Nat) (sk : Skeleton) (j : Joint),
      (st.getD r defaultWorld).skeletons[idx]? = some sk ∧ j ∈ sk.joints
      ∧ j.jointType ≠ "WeldJoint" ∧ j.jointType ≠ "FreeJoint"
      ∧ tabs idx j.name = none) :
    ∃ msg, init_bullet st r tabs useSyn path = .error msg
      ∧ ∃ (idx : Nat) (sk : Skeleton) (j : Joint),
        (st.getD r defaultWorld).skeletons[idx]? = some sk ∧ j ∈ sk.joints
        ∧ j.jointType ≠ "WeldJoint" ∧ j.jointType ≠ "FreeJoint"
        ∧ tabs idx j.name = none
        ∧ msg = j.name ++ " is not found in bullet, check urdf" := by
  obtain ⟨idx, sk, j, hsk, hj, hw, hf, ht⟩ := h
  cases hres : bullet_reset (st.getD r defaultWorld) tabs with
  | ok ms =>
    have := resetGo_ok_present tabs (st.getD r defaultWorld).skeletons 0 ms hres
      idx sk hsk j hj hw hf
    simp only [Nat.zero_add] at this
    exact absurd ht this
  | error m =>
    refine ⟨m, ?_, ?_⟩
    · simp only [init_bullet]
      rw [hres]
    · obtain ⟨idx', sk', j', hsk', hj', hw', hf', ht', hmsg'⟩ :=
        resetGo_error_shape tabs (st.getD r defaultWorld).skeletons 0 m hres
      exact ⟨idx', sk', j', hsk', hj', hw', hf',
        by simpa only [Nat.zero_add] using ht', hmsg'⟩

/-- Counterexample to C7 as stated: loading `armWorld` (skeleton "arm" with
revolute joint "elbow") against an empty bullet joint table aborts with the
assert message, but the message does not contain the skeleton name "arm"
anywhere — the claim that it "names both the missing joint and its
skeleton" fails.  (It does contain the joint name "elbow".) -/
theorem C7_counterexample :
    init_bullet armStore 0 emptyTabs true none
      = .error "elbow is not found in bullet, check urdf"
    ∧ ¬ (∃ pre post : List Char,
          ("elbow is not found in bullet, check urdf").toList
            = pre ++ ("arm").toList ++ post)
    ∧ (∃ pre post : List Char,
          ("elbow is not found in bullet, check urdf").toList
            = pre ++ ("elbow").toList ++ post) := by
  refine ⟨by decide, ?_, ?_⟩
  · intro hocc
    have : charsOccur ("arm").toList
        ("elbow is not found in bullet, check urdf").toList = true :=
      (charsOccur_iff _ _).mpr hocc
    exact absurd this (by decide)
  · exact ⟨[], (" is not found in bullet, check urdf").toList, by decide⟩

/-- Witness for the amended C7 at the concrete arm world: the load aborts
and the message is the elbow assert text. -/
theorem C7_witness :
    ∃ msg, init_bullet armStore 0 emptyTabs true none = .error msg
      ∧ ∃ (idx : Nat) (sk : Skeleton) (j : Joint),
        (armStore.getD 0 defaultWorld).skeletons[idx]? = some sk ∧ j ∈ sk.joints
        ∧ j.jointType ≠ "WeldJoint" ∧ j.jointType ≠ "FreeJoint"
        ∧ emptyTabs idx j.name = none
        ∧ msg = j.name ++ " is not found in bullet, check urdf" :=
  C7_missing_joint_aborts armStore 0 emptyTabs true none
    ⟨0, ⟨"arm", "arm.urdf", [0, 0, 0], [0, 0, 0], [⟨"elbow", "RevoluteJoint", 1⟩]⟩,
     ⟨"elbow", "RevoluteJoint", 1⟩, by decide, by decide, by decide, by decide, rfl⟩

/-! ## Lemmas about the state splitter -/

/-- A free-joint entry of a skeleton's table always yields its
`resetBasePositionAndOrientation` command, built from its
`{offset, DOF}` slice of the skeleton's actions:
translation = slice elements 3.. added to the recorded initial position,
orientation = recorded initial orientation plus slice elements 0..3. -/
lemma free_cmd_mem_skelJointCmds (p_id : Nat) (ip ir acts : List ℚ) :
    ∀ (entries : List JointEntry) (e : JointEntry),
      e ∈ entries → e.isFreeJoint = true →
      BulletCmd.resetBasePose p_id
          (List.zipWith (· + ·) (((acts.drop e.staTick).take e.dof).drop 3) ip)
          (List.zipWith (· + ·) ir (((acts.drop e.staTick).take e.dof).take 3))
        ∈ skelJointCmds p_id ip ir acts entries := by
  intro entries
  induction entries with
  | nil => intro e he; cases he
  | cons e0 rest ih =>
    intro e he hfree
    rcases List.mem_cons.mp he with rfl | he'
    · simp only [skelJointCmds, hfree, if_pos]
      exact List.mem_append_left _ (List.mem_singleton.mpr rfl)
    · exact List.mem_append_right _ (ih e he' hfree)

/-- Lifting of the free-joint command to the skeleton loop: for any
decomposition of the zipped skeleton list, the free entry's command appears
in the output, with the skeleton's slice starting at the running offset
plus the preceding skeletons' DOF counts. -/
lemma free_cmd_mem_loopStateGo :
    ∀ (pre post : List (Skeleton × SkelMap)) (sk : Skeleton) (m : SkelMap)
      (t : Nat) (state : List ℚ) (e : JointEntry),
      sk.getNumDofs ≠ 0 → e ∈ m.entries → e.isFreeJoint = true →
      BulletCmd.resetBasePose m.bullet_id
          (List.zipWith (· + ·)
            ((((state.drop (t + ((pre.map (fun q => q.1.getNumDofs)).sum))).take
                sk.getNumDofs).drop e.staTick).take e.dof |>.drop 3)
            m.init_pos)
          (List.zipWith (· + ·) m.init_rot
            ((((state.drop (t + ((pre.map (fun q => q.1.getNumDofs)).sum))).take
                sk.getNumDofs).drop e.staTick).take e.dof |>.take 3))
        ∈ loopStateGo (pre ++ (sk, m) :: post) t state := by
  intro pre
  induction pre with
  | nil =>
    intro post sk m t state e hdof he hfree
    simp only [List.nil_append, List.map_nil, List.sum_nil, Nat.add_zero,
      loopStateGo, if_neg hdof]
    exact List.mem_append_left _
      (free_cmd_mem_skelJointCmds m.bullet_id m.init_pos m.init_rot
        ((state.drop t).take sk.getNumDofs) m.entries e he hfree)
  | cons q0 pre' ih =>
    intro post sk m t state e hdof he hfree
    simp only [List.cons_append, List.map_cons, List.sum_cons, loopStateGo]
    by_cases h0 : q0.1.getNumDofs = 0
    · rw [if_pos h0, h0]
      simpa only [Nat.zero_add] using ih post sk m t state e hdof he hfree
    · rw [if_neg h0]
      refine List.mem_append_right _ ?_
      have := ih post sk m (t + q0.1.getNumDofs) state e hdof he hfree
      simpa only [Nat.add_assoc] using this

/-- C1: the state splitter's treatment of free-floating joints.
First conjunct (general): for every skeleton (at any position of the world
loop, with any running offset) whose mapping has a free-joint entry, the
splitter emits `resetBasePositionAndOrientation` for the mirror body with
position = translation-delta (slice elements 3..) + recorded initial
position and Euler orientation = recorded initial orientation +
rotation-delta (slice elements 0..3), the slice being the entry's
`{offset, DOF}` window of the skeleton's state slice — i.e. the 6-value
slice is read as [rotation-delta(3), translation-delta(3)] and composed by
component-wise addition.  Second conjunct: for the spec's two-joint example
skeleton with arbitrary recorded initial pose, splitting the all-zero state
vector reproduces exactly the unmodified initial pose (and zero elbow
angle).  Third conjunct: the spec's concrete example — state
[0.1,0,0, 0,0,1, 0.5] yields root pose orientation [0.1,0,0] at position
[0,0,1] and elbow joint position 0.5. -/
theorem C1_free_joint_state_split :
    (∀ (pre post : List (Skeleton × SkelMap)) (sk : Skeleton) (m : SkelMap)
       (t : Nat) (state : List ℚ) (e : JointEntry),
       sk.getNumDofs ≠ 0 → e ∈ m.entries → e.isFreeJoint = true →
       BulletCmd.resetBasePose m.bullet_id
           (List.zipWith (· + ·)
             ((((state.drop (t + ((pre.map (fun q => q.1.getNumDofs)).sum))).take
                 sk.getNumDofs).drop e.staTick).take e.dof |>.drop 3)
             m.init_pos)
           (List.zipWith (· + ·) m.init_rot
             ((((state.drop (t + ((pre.map (fun q => q.1.getNumDofs)).sum))).take
                 sk.getNumDofs).drop e.staTick).take e.dof |>.take 3))
         ∈ loopStateGo (pre ++ (sk, m) :: post) t state)
    ∧ (∀ p₁ p₂ p₃ r₁ r₂ r₃ : ℚ,
        bullet_reset (elbowWorld [p₁, p₂, p₃] [r₁, r₂, r₃]) demoTabs
          = .ok [⟨0, [p₁, p₂, p₃], [r₁, r₂, r₃],
                 [⟨true, 0, 6, none, 0⟩, ⟨false, 6, 1, some 0, 1⟩]⟩]
        ∧ bullet_loopState (elbowWorld [p₁, p₂, p₃] [r₁, r₂, r₃])
            [⟨0, [p₁, p₂, p₃], [r₁, r₂, r₃],
              [⟨true, 0, 6, none, 0⟩, ⟨false, 6, 1, some 0, 1⟩]⟩]
            [0, 0, 0, 0, 0, 0, 0]
          = [BulletCmd.resetBasePose 0 [p₁, p₂, p₃] [r₁, r₂, r₃],
             BulletCmd.resetJointState 0 0 0])
    ∧ bullet_loopState (elbowWorld [0, 0, 0] [0, 0, 0]) demoMaps
        [0.1, 0, 0, 0, 0, 1, 0.5]
      = [BulletCmd.resetBasePose 0 [0, 0, 1] [0.1, 0, 0],
         BulletCmd.resetJointState 0 0 0.5] := by
  refine ⟨free_cmd_mem_loopStateGo, ?_, ?_⟩
  · intro p₁ p₂ p₃ r₁ r₂ r₃
    refine ⟨rfl, ?_⟩
    simp [bullet_loopState, loopStateGo, skelJointCmds, elbowWorld,
      elbowSkeleton, elbowJoints, Skeleton.getNumDofs]
  · simp [bullet_loopState, loopStateGo, skelJointCmds, elbowWorld,
      elbowSkeleton, elbowJoints, demoMaps, Skeleton.getNumDofs]

/-- Witness for C1's general conjunct at the concrete example world: the
free entry of the example mapping yields the composed root pose command. -/
theorem C1_witness :
    BulletCmd.resetBasePose 0 [0, 0, 1] [0.1, 0, 0]
      ∈ loopStateGo
          [(elbowSkeleton [0, 0, 0] [0, 0, 0],
            ⟨0, [0, 0, 0], [0, 0, 0],
             [⟨true, 0, 6, none, 0⟩, ⟨false, 6, 1, some 0, 1⟩]⟩)]
          0 [0.1, 0, 0, 0, 0, 1, 0.5] := by
  have h := C1_free_joint_state_split.1 [] []
    (elbowSkeleton [0, 0, 0] [0, 0, 0])
    ⟨0, [0, 0, 0], [0, 0, 0], [⟨true, 0, 6, none, 0⟩, ⟨false, 6, 1, some 0, 1⟩]⟩
    0 [0.1, 0, 0, 0, 0, 1, 0.5] ⟨true, 0, 6, none, 0⟩
    (by decide) (by decide) rfl
  simpa [elbowSkeleton, elbowJoints, Skeleton.getNumDofs] using h

/-! ## Lemmas about the playback scheduler -/

/-- Session component of one tick while a loop is active: only the cursor
changes — it advances while within the trajectory and resets to 0 on the
tick after the last column (which applies nothing). -/
lemma onTick_sess_looping (st : Store) (s : Session) (cols : List (List ℚ))
    (c : Nat) (hl : s.looping = some true) (hp : s.posMatrixToLoop = some cols)
    (hi : s.i = some c) :
    (onTick st s).sess = { s with i := some (if c < cols.length then c + 1 else 0) } := by
  simp only [onTick, hl, hp, hi]
  by_cases h : c < cols.length
  · rw [if_pos h, if_pos h]
  · rw [if_neg h, if_neg h]

/-- Cursor arithmetic of the wrap-with-skip dynamics: one step of
"increment if below N, else reset to 0" advances `t % (N + 1)` to
`(t + 1) % (N + 1)`. -/
lemma cursor_mod_step (N t : Nat) :
    (if t % (N + 1) < N then t % (N + 1) + 1 else 0) = (t + 1) % (N + 1) := by
  have hm : t % (N + 1) < N + 1 := Nat.mod_lt _ (Nat.succ_pos N)
  have hadd : (t + 1) % (N + 1) = (t % (N + 1) + 1 % (N + 1)) % (N + 1) :=
    Nat.add_mod t 1 (N + 1)
  by_cases h : t % (N + 1) < N
  · rw [if_pos h, hadd, Nat.mod_eq_of_lt (show 1 < N + 1 by omega),
      Nat.mod_eq_of_lt (show t % (N + 1) + 1 < N + 1 by omega)]
  · rw [if_neg h]
    have he : t % (N + 1) = N := by omega
    rw [hadd, he]
    cases N with
    | zero => simp
    | succ n =>
      rw [Nat.mod_eq_of_lt (show 1 < n + 1 + 1 by omega)]
      simp [Nat.mod_self]

/-- Iterated ticks from cursor 0 with an active `N`-column trajectory:
after `t` ticks the loop is still active, the trajectory unchanged, and the
cursor equals `t % (N + 1)`. -/
lemma tickN_cursor (st : Store) (s : Session) (cols : List (List ℚ))
    (hl : s.looping = some true) (hp : s.posMatrixToLoop = some cols)
    (hi : s.i = some 0) :
    ∀ t : Nat,
      (tickN t (st, s)).2.looping = some true
      ∧ (tickN t (st, s)).2.posMatrixToLoop = some cols
      ∧ (tickN t (st, s)).2.i = some (t % (cols.length + 1)) := by
  intro t
  induction t with
  | zero => exact ⟨hl, hp, by simpa using hi⟩
  | succ t ih =>
    obtain ⟨ihl, ihp, ihi⟩ := ih
    have hstep : tickN (t + 1) (st, s) = tickStep (tickN t (st, s)) :=
      Function.iterate_succ_apply' tickStep t (st, s)
    have hsess := onTick_sess_looping (tickN t (st, s)).1 (tickN t (st, s)).2
      cols (t % (cols.length + 1)) ihl ihp ihi
    rw [hstep]
    show ((onTick (tickN t (st, s)).1 (tickN t (st, s)).2).sess.looping = some true)
      ∧ ((onTick (tickN t (st, s)).1 (tickN t (st, s)).2).sess.posMatrixToLoop = some cols)
      ∧ ((onTick (tickN t (st, s)).1 (tickN t (st, s)).2).sess.i
          = some ((t + 1) % (cols.length + 1)))
    rw [hsess]
    exact ⟨ihl, ihp, by rw [cursor_mod_step]⟩

/-- C3 (amended): in live/ticked mode, with an active trajectory of `N`
columns and the cursor starting at 0, each in-range tick advances the
cursor by one and the tick after the last column resets it to 0 without
applying a state, so the cursor cycles forever with period `N + 1`:
after `t` ticks it equals `t % (N + 1)` (in particular it is 0 again after
`N + 1` ticks, not after `N`), and the loop never terminates. -/
theorem C3_cursor_wraps_with_skip (st : Store) (s : Session)
    (cols : List (List ℚ)) (t : Nat)
    (hl : s.looping = some true) (hp : s.posMatrixToLoop = some cols)
    (hi : s.i = some 0) :
    (tickN t (st, s)).2.i = some (t % (cols.length + 1))
    ∧ (tickN t (st, s)).2.looping = some true := by
  obtain ⟨h1, _, h3⟩ := tickN_cursor st s cols hl hp hi t
  exact ⟨h3, h1⟩

/-- Store/session pair reached by constructing a websocket session over
`wsStore` and installing a two-column trajectory (cursor still 0). -/
def wsLoopPair : Store × Session :=
  let p := init_ws wsStore 0
  let r := loopStates p.1 p.2.1 [[1], [2]] false 0
  (r.store, r.sess)

/-- Counterexample to C3 as stated: with a trajectory of length N = 2 and
the cursor at 0, after N = 2 ticks the cursor is 2, not 0, and after
N + k = 3 ticks (k = 1) it is 0, not 1 — the cycle has period N + 1, not N,
because the wrap tick applies nothing. -/
theorem C3_counterexample :
    (tickN 2 wsLoopPair).2.i ≠ some 0
    ∧ (tickN 3 wsLoopPair).2.i ≠ some 1 := by decide

/-- Witness for the amended C3 at the concrete two-column loop: after 3
ticks the cursor is back at 0 = 3 % 3, with the loop still active. -/
theorem C3_witness :
    (tickN 3 wsLoopPair).2.i = some (3 % (2 + 1))
    ∧ (tickN 3 wsLoopPair).2.looping = some true :=
  C3_cursor_wraps_with_skip wsLoopPair.1 wsLoopPair.2 [[1], [2]] 3
    (by decide) (by decide) (by decide)

/-- Session state after re-installing a three-column trajectory while the
cursor (advanced by two earlier ticks) stands at 2. -/
def c4Install : MRes :=
  let q := tickN 2 wsLoopPair
  loopStates q.1 q.2 [[5], [6], [7]] false 0

/-- Counterexample to C4 as stated: installing a new trajectory via
`loopStates` does NOT reset the playback cursor — after the install the
cursor still reads 2, and the first subsequent tick applies the new
trajectory's column 2 (positions [7]), not its column 0 (positions [5]). -/
theorem C4_counterexample :
    c4Install.sess.i ≠ some 0
    ∧ ((tickN 1 (c4Install.store, c4Install.sess)).1.getD 1 defaultWorld).pos = [7]
    ∧ ((tickN 1 (c4Install.store, c4Install.sess)).1.getD 1 defaultWorld).pos ≠ [5] := by
  decide

/-- C4 (amended): installing a new trajectory (`loopStates` or
`loopPosMatrix`) in live/ticked mode marks the loop active and replaces the
trajectory matrix (for `loopStates`, the position half of each state), but
leaves the playback cursor unchanged and the world untouched; the first
subsequent tick therefore applies the new trajectory at the old cursor
index when in range, not at index 0. -/
theorem C4_loop_install_keeps_cursor (st : Store) (s : Session)
    (states poses : List (List ℚ))
    (hb : s.useBullet = false) (hg : s.guiServer = true) :
    (loopStates st s states false 0).sess.i = s.i
    ∧ (loopStates st s states false 0).sess.looping = some true
    ∧ (loopStates st s states false 0).sess.posMatrixToLoop
        = some (states.map (fun v => v.take ((st.getD s.worldRef defaultWorld).getNumDofs)))
    ∧ (loopStates st s states false 0).store = st
    ∧ (loopPosMatrix st s poses).sess.i = s.i
    ∧ (loopPosMatrix st s poses).sess.looping = some true
    ∧ (loopPosMatrix st s poses).sess.posMatrixToLoop = some poses
    ∧ (loopPosMatrix st s poses).store = st := by
  simp [loopStates, loopPosMatrix, hb, hg]

/-- Witness for the amended C4 at the concrete re-install: cursor stays 2,
loop active, matrix replaced, store untouched. -/
theorem C4_witness :
    (loopStates (tickN 2 wsLoopPair).1 (tickN 2 wsLoopPair).2 [[5], [6], [7]] false 0).sess.i
      = (tickN 2 wsLoopPair).2.i
    ∧ (loopStates (tickN 2 wsLoopPair).1 (tickN 2 wsLoopPair).2 [[5], [6], [7]] false 0).sess.looping
      = some true :=
  ⟨(C4_loop_install_keeps_cursor (tickN 2 wsLoopPair).1 (tickN 2 wsLoopPair).2
      [[5], [6], [7]] [] (by decide) (by decide)).1,
   (C4_loop_install_keeps_cursor (tickN 2 wsLoopPair).1 (tickN 2 wsLoopPair).2
      [[5], [6], [7]] [] (by decide) (by decide)).2.1⟩

/-- A tick while no loop is active does nothing: same store, same session,
no effects, no error. -/
lemma onTick_not_looping (st : Store) (s : Session)
    (h : s.looping = some false) : onTick st s = ⟨st, s, [], none⟩ := by
  simp [onTick, h]

/-- C8: in live/ticked mode, `displayState` clears the looping flag before
rendering the immediate state, and from then on every tick is a strict
no-op (fixed point: no store change, no session change) and emits no
effects — there is never a stray loop-driven update after an immediate
display, until some later call re-activates a loop. -/
theorem C8_display_cancels_loop (st : Store) (s : Session) (x : List ℚ)
    (hg : s.guiServer = true) :
    (displayState st s x).sess.looping = some false
    ∧ (displayState st s x).err = none
    ∧ (∀ n, tickN n ((displayState st s x).store, (displayState st s x).sess)
        = ((displayState st s x).store, (displayState st s x).sess))
    ∧ (onTick (displayState st s x).store (displayState st s x).sess).effs = [] := by
  have hsess : (displayState st s x).sess = { s with looping := some false } := by
    simp [displayState, hg]
  have hloop : (displayState st s x).sess.looping = some false := by rw [hsess]
  have hfix : tickStep ((displayState st s x).store, (displayState st s x).sess)
      = ((displayState st s x).store, (displayState st s x).sess) := by
    show ((onTick _ _).store, (onTick _ _).sess) = _
    rw [onTick_not_looping _ _ hloop]
  refine ⟨hloop, by simp [displayState, hg], fun n => Function.iterate_fixed hfix n, ?_⟩
  rw [onTick_not_looping _ _ hloop]

/-- Witness for C8 at a concrete active loop: displaying an immediate state
deactivates the loop, the next ticks are no-ops with no effects. -/
theorem C8_witness :
    (displayState wsLoopPair.1 wsLoopPair.2 [4, 4]).sess.looping = some false
    ∧ (displayState wsLoopPair.1 wsLoopPair.2 [4, 4]).err = none
    ∧ tickN 5 ((displayState wsLoopPair.1 wsLoopPair.2 [4, 4]).store,
               (displayState wsLoopPair.1 wsLoopPair.2 [4, 4]).sess)
        = ((displayState wsLoopPair.1 wsLoopPair.2 [4, 4]).store,
           (displayState wsLoopPair.1 wsLoopPair.2 [4, 4]).sess) :=
  ⟨(C8_display_cancels_loop wsLoopPair.1 wsLoopPair.2 [4, 4] (by decide)).1,
   (C8_display_cancels_loop wsLoopPair.1 wsLoopPair.2 [4, 4] (by decide)).2.1,
   (C8_display_cancels_loop wsLoopPair.1 wsLoopPair.2 [4, 4] (by decide)).2.2.1 5⟩

/-! ## Frame lemmas: session operations write only the session's own world -/

/-- No event changes which world the session references. -/
lemma stepOp_worldRef (p : Store × Session) (op : WsOp) :
    (stepOp p op).sess.worldRef = p.2.worldRef := by
  cases op with
  | display x =>
    simp only [stepOp, displayState]
    split <;> rfl
  | loopStatesOp ss =>
    simp only [stepOp, loopStates]
    split
    · rfl
    · split <;> rfl
  | loopPosOp ps =>
    simp only [stepOp, loopPosMatrix]
    split <;> rfl
  | stopLoop => rfl
  | connect => rfl
  | timerFire =>
    simp only [stepOp]
    by_cases hts : p.2.tickerStarted = true
    · rw [if_pos hts]
      cases hl : p.2.looping with
      | none => simp [onTick, hl]
      | some b =>
        cases b
        · simp [onTick, hl]
        · cases hpm : p.2.posMatrixToLoop with
          | none => simp [onTick, hl, hpm]
          | some cols =>
            cases hi : p.2.i with
            | none => simp [onTick, hl, hpm, hi]
            | some c =>
              by_cases hc : c < cols.length
              · simp [onTick, hl, hpm, hi, hc]
              · simp [onTick, hl, hpm, hi, hc]
    · rw [if_neg hts]

/-- Every event leaves every store entry other than the session's own world
untouched: the only store writes are `List.set` at `worldRef`. -/
lemma stepOp_store_frame (p : Store × Session) (op : WsOp) (q : Nat)
    (hq : q ≠ p.2.worldRef) :
    (stepOp p op).store[q]? = p.1[q]? := by
  have hset : ∀ (l : Store) (w : World), (l.set p.2.worldRef w)[q]? = l[q]? :=
    fun l w => List.getElem?_set_ne (Ne.symm hq)
  cases op with
  | display x =>
    simp only [stepOp, displayState]
    split <;> exact hset _ _
  | loopStatesOp ss =>
    simp only [stepOp, loopStates]
    split
    · rfl
    · split <;> rfl
  | loopPosOp ps =>
    simp only [stepOp, loopPosMatrix]
    split <;> rfl
  | stopLoop => rfl
  | connect => rfl
  | timerFire =>
    simp only [stepOp]
    by_cases hts : p.2.tickerStarted = true
    · rw [if_pos hts]
      cases hl : p.2.looping with
      | none => simp [onTick, hl]
      | some b =>
        cases b
        · simp [onTick, hl]
        · cases hpm : p.2.posMatrixToLoop with
          | none => simp [onTick, hl, hpm]
          | some cols =>
            cases hi : p.2.i with
            | none => simp [onTick, hl, hpm, hi]
            | some c =>
              by_cases hc : c < cols.length
              · simp only [onTick, hl, hpm, hi, if_pos hc]
                exact hset _ _
              · simp [onTick, hl, hpm, hi, hc]
    · rw [if_neg hts]

/-- Frame property for whole event sequences. -/
lemma runOps_store_frame : ∀ (ops : List WsOp) (p : Store × Session) (q : Nat),
    q ≠ p.2.worldRef → (runOps ops p).store[q]? = p.1[q]? := by
  intro ops
  induction ops with
  | nil => intro p q _; rfl
  | cons op rest ih =>
    intro p q hq
    simp only [runOps]
    have h2 : q ≠ (stepOp p op).sess.worldRef := by
      rw [stepOp_worldRef]; exact hq
    rw [ih ((stepOp p op).store, (stepOp p op).sess) q h2]
    exact stepOp_store_frame p op q hq

/-- Counterexample to C5 as stated: in bullet (alternate-renderer) mode the
caller's world is stored WITHOUT cloning — construction returns the store
unchanged with `worldRef` equal to the caller's own reference — and the
session operation `displayState` then mutates the caller-owned world
in place (before raising).  So "cloned at session creation … in either
backend mode" is false. -/
theorem C5_counterexample :
    init_bullet demoStore 0 demoTabs true none
      = .ok (demoStore, demoBulletSess,
          [Effect.bulletCmdE (BulletCmd.resetBasePose 0 [0, 0, 0] [0, 0, 0]),
           Effect.bulletCmdE (BulletCmd.resetJointState 0 0 0),
           Effect.cameraImage])
    ∧ demoBulletSess.worldRef = 0
    ∧ (displayState demoStore demoBulletSess (List.replicate 14 9)).store.getD 0 defaultWorld
        ≠ demoStore.getD 0 defaultWorld := by
  refine ⟨?_, rfl, by decide⟩
  show Except.ok _ = _
  congr 1
  refine Prod.ext rfl (Prod.ext rfl ?_)
  show bulletFrameEffects _ _ _ _ _ _ = _
  simp [bulletFrameEffects, bullet_loopState, loopStateGo, skelJointCmds,
    elbowWorld, elbowSkeleton, elbowJoints, demoMaps, demoStore,
    Skeleton.getNumDofs, World.getState, captureWrites]

/-- C5 (amended): in websocket mode the caller's world is cloned at session
creation and every session operation — immediate displays, loop installs,
loop stops, ticks, connects, in any order — mutates only the session's
clone: the caller's store entry reads back unchanged. -/
theorem C5_ws_world_isolation (st : Store) (r : Nat) (ops : List WsOp)
    (h : r < st.length) :
    (runOps ops ((init_ws st r).1, (init_ws st r).2.1)).store[r]? = st[r]? := by
  have hne : r ≠ (init_ws st r).2.1.worldRef := by
    show r ≠ st.length
    omega
  rw [runOps_store_frame ops _ r hne]
  show (st ++ [(st.getD r defaultWorld).clone])[r]? = st[r]?
  rw [List.getElem?_append, if_pos h]

/-- Witness for the amended C5: a concrete session over `wsStore` runs a
loop install, a connect, ticks and an immediate display; the caller's world
at reference 0 is unchanged. -/
theorem C5_witness :
    (runOps [WsOp.loopStatesOp [[1], [2]], WsOp.connect, WsOp.timerFire,
             WsOp.display [3, 3], WsOp.timerFire]
        ((init_ws wsStore 0).1, (init_ws wsStore 0).2.1)).store[0]?
      = wsStore[0]? :=
  C5_ws_world_isolation wsStore 0
    [WsOp.loopStatesOp [[1], [2]], WsOp.connect, WsOp.timerFire,
     WsOp.display [3, 3], WsOp.timerFire] (by decide)

/-- Counterexample to C6 as stated: in bullet mode `displayState` and
`loopPosMatrix` do NOT merely warn and no-op — each raises
`AttributeError` (the websocket server attribute does not exist) and
mutates state first: `displayState` rewrites the (un-cloned) session world,
`loopPosMatrix` sets the looping flag. -/
theorem C6_counterexample :
    (displayState demoStore demoBulletSess [9, 9]).err ≠ none
    ∧ (displayState demoStore demoBulletSess [9, 9]).store ≠ demoStore
    ∧ (loopPosMatrix demoStore demoBulletSess [[1]]).err ≠ none
    ∧ (loopPosMatrix demoStore demoBulletSess [[1]]).sess ≠ demoBulletSess := by
  decide

/-- C6 (amended): what each websocket-only operation actually does in
bullet mode — `serve` logs a warning and is a no-op; `blockWhileServing`
returns silently (no warning); `nativeAPI` prints a notice and returns the
deprecated stub; but `displayState` and `loopPosMatrix` are unguarded:
each raises `AttributeError "guiServer"`, `displayState` after writing the
state into the session's world and clearing the looping flag,
`loopPosMatrix` after setting the looping flag. -/
theorem C6_bullet_mode_ops (st : Store) (s : Session) (x : List ℚ)
    (poses : List (List ℚ)) (port : Nat)
    (hb : s.useBullet = true) (hg : s.guiServer = false) :
    serve st s port
      = ⟨st, s, [Effect.logWarning "No need to call this function for bullet"], none⟩
    ∧ blockWhileServing st s = ⟨st, s, [], none⟩
    ∧ nativeAPI s
      = (NativeRet.stub, [Effect.printMsg "No need to call this function for bullet"])
    ∧ displayState st s x
      = ⟨st.set s.worldRef ((st.getD s.worldRef defaultWorld).setState x),
         { s with looping := some false }, [],
         some (PyErr.attributeError "guiServer")⟩
    ∧ loopPosMatrix st s poses
      = ⟨st, { s with looping := some true }, [],
         some (PyErr.attributeError "guiServer")⟩ := by
  refine ⟨?_, ?_, ?_, ?_, ?_⟩ <;>
    simp [serve, blockWhileServing, nativeAPI, displayState, loopPosMatrix, hb, hg]

/-- Witness for the amended C6 at the concrete bullet session. -/
theorem C6_witness :
    serve demoStore demoBulletSess 8080
      = ⟨demoStore, demoBulletSess,
         [Effect.logWarning "No need to call this function for bullet"], none⟩
    ∧ blockWhileServing demoStore demoBulletSess
      = ⟨demoStore, demoBulletSess, [], none⟩
    ∧ loopPosMatrix demoStore demoBulletSess [[2]]
      = ⟨demoStore, { demoBulletSess with looping := some true }, [],
         some (PyErr.attributeError "guiServer")⟩ :=
  ⟨(C6_bullet_mode_ops demoStore demoBulletSess [] [[2]] 8080 rfl rfl).1,
   (C6_bullet_mode_ops demoStore demoBulletSess [] [[2]] 8080 rfl rfl).2.1,
   (C6_bullet_mode_ops demoStore demoBulletSess [] [[2]] 8080 rfl rfl).2.2.2.2⟩

/-- Counterexample to C9 as stated: with a capture directory and a numeric
save index both present but the synthetic camera disabled, no files are
written — presence of directory and index alone is not sufficient. -/
theorem C9_counterexample :
    captureWrites false (some "cap") (some 3) = []
    ∧ (some "cap" : Option String) ≠ none
    ∧ (some 3 : Option Nat) ≠ none := by
  decide

/-- C9 (amended): the capture sink writes files for a frame iff the
synthetic camera subsystem is enabled AND a capture directory AND a numeric
save index are present; when it writes, it writes exactly one file per
modality, named `{modality}_{index}.npy` for modality in
rgb / depth / segmentation, in the caller-specified directory (the braces
here describe the Python f-string pattern). -/
theorem C9_capture_needs_synthetic_camera (useSyn : Bool) (path : Option String)
    (idx : Option Nat) :
    (captureWrites useSyn path idx ≠ []
      ↔ useSyn = true ∧ path ≠ none ∧ idx ≠ none)
    ∧ (∀ d n, useSyn = true → path = some d → idx = some n →
        captureWrites useSyn path idx
          = [d ++ "/rgb_" ++ toString n ++ ".npy",
             d ++ "/depth_" ++ toString n ++ ".npy",
             d ++ "/segmentation_" ++ toString n ++ ".npy"]) := by
  constructor
  · cases useSyn <;> cases path <;> cases idx <;> simp [captureWrites]
  · intro d n h1 h2 h3
    subst h1; subst h2; subst h3
    simp [captureWrites]

/-- Witness for the amended C9: enabled camera, directory "cap", index 3
produce exactly the three modality files. -/
theorem C9_witness :
    captureWrites true (some "cap") (some 3)
      = ["cap/rgb_3.npy", "cap/depth_3.npy", "cap/segmentation_3.npy"] :=
  (C9_capture_needs_synthetic_camera true (some "cap") (some 3)).2
    "cap" 3 rfl rfl rfl

/-! ## No ticks before the first connection -/

/-- Events that install or drive playback without an immediate display and
without a viewer connecting. -/
def isPlaybackOp : WsOp → Bool
  | .loopStatesOp _ => true
  | .loopPosOp _ => true
  | .stopLoop => true
  | .timerFire => true
  | _ => false

/-- One playback event on a websocket session whose ticker has not been
started leaves the store and the cursor untouched and renders no world
update: the timer delivers nothing before `Ticker.start`, and loop installs
only draw overlay lines. -/
lemma playback_step_inert (p : Store × Session) (op : WsOp)
    (hop : isPlaybackOp op = true) (ht : p.2.tickerStarted = false)
    (hb : p.2.useBullet = false) :
    (stepOp p op).store = p.1
    ∧ (stepOp p op).sess.i = p.2.i
    ∧ (stepOp p op).sess.tickerStarted = false
    ∧ (stepOp p op).sess.useBullet = false
    ∧ Effect.renderWorld ∉ (stepOp p op).effs := by
  cases op with
  | display x => simp [isPlaybackOp] at hop
  | connect => simp [isPlaybackOp] at hop
  | stopLoop => exact ⟨rfl, rfl, ht, hb, by simp [stepOp, stopLooping]⟩
  | timerFire =>
    simp only [stepOp, ht]
    exact ⟨rfl, rfl, ht, hb, by simp⟩
  | loopStatesOp ss =>
    simp only [stepOp, loopStates, hb]
    by_cases hg : p.2.guiServer = true
    · simp [hg, ht, hb]
    · simp [hg, ht, hb]
  | loopPosOp ps =>
    simp only [stepOp, loopPosMatrix]
    by_cases hg : p.2.guiServer = true
    · simp [hg, ht, hb]
    · simp [hg, ht, hb]

/-- Playback event sequences are inert before the first connection. -/
lemma runOps_playback_inert : ∀ (ops : List WsOp) (p : Store × Session),
    (∀ op ∈ ops, isPlaybackOp op = true) →
    p.2.tickerStarted = false → p.2.useBullet = false →
    (runOps ops p).store = p.1
    ∧ (runOps ops p).sess.i = p.2.i
    ∧ (runOps ops p).sess.tickerStarted = false
    ∧ Effect.renderWorld ∉ (runOps ops p).effs := by
  intro ops
  induction ops with
  | nil => intro p _ ht _; exact ⟨rfl, rfl, ht, by simp [runOps]⟩
  | cons op rest ih =>
    intro p hops ht hb
    have hop := hops op (List.mem_cons_self _ _)
    have hrest := fun o ho => hops o (List.mem_cons_of_mem _ ho)
    obtain ⟨h1, h2, h3, h4, h5⟩ := playback_step_inert p op hop ht hb
    obtain ⟨g1, g2, g3, g4⟩ :=
      ih ((stepOp p op).store, (stepOp p op).sess) hrest h3 h4
    simp only [runOps]
    refine ⟨by rw [g1, h1], by rw [g2, h2], g3, ?_⟩
    intro hmem
    rcases List.mem_append.mp hmem with hm | hm
    · exact h5 hm
    · exact g4 hm

/-- C10: in live/ticked mode the background tick loop starts only when a
viewer connection fires `_onConnect`; before that, any sequence of loop
installs, loop stops and timer firings leaves the session's cloned world
(indeed the whole store) unchanged, keeps the cursor at 0, never starts
the ticker and never renders a world update — installing a trajectory
produces no playback until at least one client has connected. -/
theorem C10_no_ticks_before_connect (st : Store) (r : Nat) (ops : List WsOp)
    (hops : ∀ op ∈ ops, isPlaybackOp op = true) :
    (runOps ops ((init_ws st r).1, (init_ws st r).2.1)).store = (init_ws st r).1
    ∧ (runOps ops ((init_ws st r).1, (init_ws st r).2.1)).sess.i = some 0
    ∧ (runOps ops ((init_ws st r).1, (init_ws st r).2.1)).sess.tickerStarted = false
    ∧ Effect.renderWorld ∉ (runOps ops ((init_ws st r).1, (init_ws st r).2.1)).effs := by
  obtain ⟨h1, h2, h3, h4⟩ :=
    runOps_playback_inert ops ((init_ws st r).1, (init_ws st r).2.1) hops rfl rfl
  exact ⟨h1, h2, h3, h4⟩

/-- Witness for C10: a concrete install-then-fire-twice sequence before any
connect leaves the store unchanged and the cursor at 0. -/
theorem C10_witness :
    (runOps [WsOp.loopStatesOp [[1], [2]], WsOp.timerFire, WsOp.timerFire]
        ((init_ws wsStore 0).1, (init_ws wsStore 0).2.1)).store
      = (init_ws wsStore 0).1
    ∧ (runOps [WsOp.loopStatesOp [[1], [2]], WsOp.timerFire, WsOp.timerFire]
        ((init_ws wsStore 0).1, (init_ws wsStore 0).2.1)).sess.i = some 0 :=
  ⟨(C10_no_ticks_before_connect wsStore 0
      [WsOp.loopStatesOp [[1], [2]], WsOp.timerFire, WsOp.timerFire]
      (by decide)).1,
   (C10_no_ticks_before_connect wsStore 0
      [WsOp.loopStatesOp [[1], [2]], WsOp.timerFire, WsOp.timerFire]
      (by decide)).2.1⟩

end JadeGui
